import Mathlib

/-!
Verification of the Carbonsentry backend document-validation pipeline.

Shallow embedding of the Python sources under `ai_validation/`:
numbers held in Python `Decimal`/`float` are modelled as `ℚ`, calendar
dates as proleptic-Gregorian ordinals (`ℤ`, as produced by Python's
`date.toordinal`), Python `None` as `Option.none`, and fallible calls as
`Except`.  Python truthiness (`x or d`) on numeric fields is modelled
explicitly: `None` and `0` are both falsy.
-/

namespace Carbonsentry

/-- Python `float(x or d)` for an optional numeric `x`: `None` and `0`
are falsy, so both are replaced by the default `d`. -/
def pyOr (x : Option ℚ) (d : ℚ) : ℚ :=
  match x with
  | none => d
  | some q => if q = 0 then d else q

/-- Python `max(0, min(100, x))`. -/
def clamp100 (x : ℚ) : ℚ := max 0 (min 100 x)

/-- Python `round(x, 2)` modelled as round-half-up to two decimals on ℚ
(Python rounds on binary floats with banker's ties; no claim in this
development depends on the tie-breaking direction). -/
def round2 (x : ℚ) : ℚ := ((round (x * 100) : ℤ) : ℚ) / 100

/-- Python string slice `s[:n]`. -/
def pyTake (n : ℕ) (s : String) : String := String.mk (s.toList.take n)

/-- Characters matched by Python's `str.strip()` and the regex class
`\s`. -/
def isPySpace (c : Char) : Bool :=
  c = ' ' || c = '\t' || c = '\n' || c = '\r' || c = '\x0b' || c = '\x0c'

/-- Python `str.strip()`. -/
def pyStrip (s : String) : String :=
  String.mk (((s.toList.dropWhile isPySpace).reverse.dropWhile isPySpace).reverse)

/- ── Calendar ordinals (Python `datetime.date.toordinal`) ──────────── -/

/-- Leap year test of the Gregorian calendar. -/
def isLeap (y : ℕ) : Bool := y % 4 = 0 && (y % 100 ≠ 0 || y % 400 = 0)

/-- Days in the months January..December of year `y` (1-indexed). -/
def daysInMonth (y m : ℕ) : ℕ :=
  if m = 2 then (if isLeap y then 29 else 28)
  else if m = 4 || m = 6 || m = 9 || m = 11 then 30
  else 31

/-- Days of year `y` strictly before month `m`. -/
def daysBeforeMonth (y m : ℕ) : ℕ :=
  (List.range (m - 1)).foldl (fun acc i => acc + daysInMonth y (i + 1)) 0

/-- Days strictly before January 1 of year `y` in the proleptic Gregorian
calendar (Python `date(y,1,1).toordinal() - 1`). -/
def daysBeforeYear (y : ℕ) : ℕ :=
  365 * (y - 1) + (y - 1) / 4 - (y - 1) / 100 + (y - 1) / 400

/-- Python `date(y,m,d).toordinal()`. -/
def toOrdinal (y m d : ℕ) : ℤ := (daysBeforeYear y + daysBeforeMonth y m + d : ℕ)

/- ── DataValidator (ai_validation/services/validators.py) ──────────── -/

/-- `date(2000, 1, 1)` — the fixed historical floor of
`DataValidator.validate_date`. -/
def dateFloor : ℤ := toOrdinal 2000 1 1

/-- `date(2050, 12, 31)` — the fixed far-future ceiling of
`DataValidator.validate_date`. -/
def dateCeil : ℤ := toOrdinal 2050 12 31

/-- `DataValidator.validate_date`, lines 73–87, for a date that parsed
successfully: the bound checks and the 30-days-in-the-future rule that
applies to issue dates only (`is_expiry=False`).  `today` is the ordinal
of `date.today()`.  Returns `true` when the date is accepted. -/
def validate_date (parsed : ℤ) (is_expiry : Bool) (today : ℤ) : Bool :=
  if parsed < dateFloor then false
  else if dateCeil < parsed then false
  else if !is_expiry && today + 30 < parsed then false
  else true

/- ── ResponseParser (ai_validation/services/validators.py, 11–49) ──── -/

/-- Consume an optional literal `json` directly after a fence marker, as
the regex group `(?:json)?` does. -/
def dropJson : List Char → List Char
  | 'j' :: 's' :: 'o' :: 'n' :: rest => rest
  | l => l

/-- First `re.sub` in `ResponseParser.parse_json` (line 25): delete every
occurrence of three backticks, an optional `json`, and trailing
whitespace, scanning left to right. -/
def fenceStrip : List Char → List Char
  | '\x60' :: '\x60' :: '\x60' :: rest =>
      fenceStrip ((dropJson rest).dropWhile isPySpace)
  | c :: rest => c :: fenceStrip rest
  | [] => []
termination_by l => l.length
decreasing_by
  · have h1 : ((dropJson rest).dropWhile isPySpace).length ≤ (dropJson rest).length :=
      (List.dropWhile_sublist isPySpace).length_le
    have h2 : (dropJson rest).length ≤ rest.length := by
      unfold dropJson
      split
      · simp; omega
      · exact le_refl _
    simp; omega
  · simp

/-- Second `re.sub` (line 26): delete every remaining three-backtick run. -/
def tickStrip : List Char → List Char
  | '\x60' :: '\x60' :: '\x60' :: rest => tickStrip rest
  | c :: rest => c :: tickStrip rest
  | [] => []
termination_by l => l.length
decreasing_by
  · simp; omega
  · simp

/-- Lines 25–27: strip markdown fences and trim. -/
def stripFences (text : String) : String :=
  pyStrip (String.mk (tickStrip (fenceStrip text.toList)))

/-- The opening curly-brace character. -/
def obrace : Char := '\x7b'

/-- The closing curly-brace character. -/
def cbrace : Char := '\x7d'

/-- `re.search` of the greedy pattern "opening brace, `[\s\S]*`, closing
brace" (line 33): the leftmost match starts at the first opening brace
that has some closing brace after it, and the greedy star extends the
match to the last closing brace of the whole text. -/
def regexBlock (text : String) : Option String :=
  let l := text.toList
  match l.findIdx? (fun c => c = obrace) with
  | none => none
  | some i =>
      match l.reverse.findIdx? (fun c => c = cbrace) with
      | none => none
      | some k =>
          let j := l.length - 1 - k
          if i < j then some (String.mk ((l.take (j + 1)).drop i)) else none

/-- Lines 41–44: `text[text.find(obrace) : text.rfind(cbrace) + 1]` when
the first opening brace occurs strictly before the last closing brace. -/
def braceSlice (text : String) : Option String :=
  let l := text.toList
  match l.findIdx? (fun c => c = obrace) with
  | none => none
  | some start =>
      match l.reverse.findIdx? (fun c => c = cbrace) with
      | none => none
      | some k =>
          let stop := l.length - 1 - k
          if start < stop then some (String.mk ((l.take (stop + 1)).drop start)) else none

/-- `ResponseParser.parse_json`.  `loads` abstracts the external
`json.loads` (returning `none` where Python raises `JSONDecodeError`).
The four extraction strategies are attempted in order, first success
winning; the function is total, so no exception can escape to the
caller. -/
def parse_json {J : Type} (loads : String → Option J) (text : String) :
    Except String J :=
  if text = "" then .error "Empty response"
  else
    match loads (pyStrip text) with
    | some v => .ok v
    | none =>
        match loads (stripFences text) with
        | some v => .ok v
        | none =>
            match (match regexBlock text with
                   | some b => loads b
                   | none => none) with
            | some v => .ok v
            | none =>
                match (match braceSlice text with
                       | some s => loads s
                       | none => none) with
                | some v => .ok v
                | none => .error ("No valid JSON found: " ++ pyTake 200 text)

/-- `DataValidator.validate_co2_value` input: Python `None`, a numeric
value, or a value `float()` rejects. -/
inductive CO2Val where
  | cnull : CO2Val
  | cnum : ℚ → CO2Val
  | cbad : CO2Val
deriving DecidableEq

/-- `DataValidator.validate_co2_value`: `None` passes through, numbers
must lie in `[0, 10^10]`, non-numeric input is rejected.  Returns
`(valid, coerced value)`. -/
def validate_co2_value (v : CO2Val) : Bool × Option ℚ :=
  match v with
  | .cnull => (true, none)
  | .cbad => (false, none)
  | .cnum q =>
      if q < 0 then (false, none)
      else if 10000000000 < q then (false, none)
      else (true, some q)

/- ── MetadataExtractor (ai_validation/services/metadata_extractor.py) ─ -/

/-- A JSON-supplied numeric field as `_safe_decimal` sees it: Python
`None`, a number, a falsy non-number (such as an empty string or list,
replaced by the default before `float` is applied), or a truthy value
that `float` raises on. -/
inductive JNum where
  | jnull : JNum
  | jnum : ℚ → JNum
  | jbadFalsy : JNum
  | jbadTruthy : JNum
deriving DecidableEq

/-- Python `data.get(key, d)` for a numeric default `d`: `none` models an
absent key. -/
def getNum (x : Option JNum) (d : ℚ) : JNum := x.getD (JNum.jnum d)

/-- `MetadataExtractor._safe_decimal` (lines 122–126):
`Decimal(str(max(0, min(100, float(value or default)))))`, falling back
to `Decimal(str(default))` when `float` raises.  `None` and numeric zero
are falsy, so both take the default before clamping. -/
def safe_decimal (value : JNum) (dflt : ℚ) : ℚ :=
  match value with
  | .jnull => clamp100 dflt
  | .jbadFalsy => clamp100 dflt
  | .jnum q => if q = 0 then clamp100 dflt else clamp100 q
  | .jbadTruthy => dflt

/-- A JSON-supplied date field: Python `None` (or empty), a string that
parses under one of the accepted formats (carried as its ordinal), or an
unparseable value. -/
inductive RawDate where
  | dnull : RawDate
  | dparsed : ℤ → RawDate
  | dbad : RawDate
deriving DecidableEq

/-- The fields of the model's extraction payload that `_clean_data`
reads.  `none` on a confidence means the key is absent from the JSON
object.  Text-only fields (unit, authority name, certificate number,
verification standard) carry no claim and are omitted. -/
structure RawData where
  co2_value : CO2Val
  co2_confidence : Option JNum
  issue_date : RawDate
  issue_date_confidence : Option JNum
  expiry_date : RawDate
  expiry_date_confidence : Option JNum
  issuing_authority_confidence : Option JNum

/-- The cleaned values that `MetadataExtractor.extract` stores on the
`ExtractedMetadata` row (a `none` confidence is stored as SQL `NULL`). -/
structure CleanedData where
  co2_value : Option ℚ
  co2_confidence : Option ℚ
  issue_date : Option ℤ
  issue_date_confidence : Option ℚ
  expiry_date : Option ℤ
  expiry_date_confidence : Option ℚ
  issuing_authority_confidence : Option ℚ
deriving DecidableEq

/-- `MetadataExtractor._clean_data` (lines 83–120), confidence-bearing
fields.  A date key is set only when `validate_date` accepts a parsed
date; an invalid or absent CO2 value zeroes its confidence. -/
def clean_data (today : ℤ) (data : RawData) : CleanedData :=
  let co2 := validate_co2_value data.co2_value
  let co2v : Option ℚ × Option ℚ :=
    match co2 with
    | (true, some q) => (some q, some (safe_decimal (getNum data.co2_confidence 70) 0))
    | _ => (none, some 0)
  let issue : Option ℤ × Option ℚ :=
    match data.issue_date with
    | .dparsed ord =>
        if validate_date ord false today then
          (some ord, some (safe_decimal (getNum data.issue_date_confidence 70) 0))
        else (none, none)
    | _ => (none, none)
  let expiry : Option ℤ × Option ℚ :=
    match data.expiry_date with
    | .dparsed ord =>
        if validate_date ord true today then
          (some ord, some (safe_decimal (getNum data.expiry_date_confidence 70) 0))
        else (none, none)
    | _ => (none, none)
  { co2_value := co2v.1, co2_confidence := co2v.2,
    issue_date := issue.1, issue_date_confidence := issue.2,
    expiry_date := expiry.1, expiry_date_confidence := expiry.2,
    issuing_authority_confidence :=
      some (safe_decimal (getNum data.issuing_authority_confidence 60) 0) }

/- ── GeminiClient + AuthenticityAnalyzer ───────────────────────────── -/

/-- `GeminiClient.call` (lines 34–36) for a request whose transport
succeeds: empty response text is turned into the failure
`"Empty response from API"`. -/
def geminiCall (resp : String) : Except String String :=
  if resp = "" then .error "Empty response from API" else .ok resp

/-- The retry loop of `GeminiClient.call_with_retry`: `resps n` is the
text the model returns on attempt `n`; `fuel` is the number of retries
still allowed.  Returns the first success, else the last failure. -/
def callLoop (resps : ℕ → String) : ℕ → ℕ → Except String String
  | attempt, 0 => geminiCall (resps attempt)
  | attempt, fuel + 1 =>
      match geminiCall (resps attempt) with
      | .ok r => .ok r
      | .error _ => callLoop resps (attempt + 1) fuel

/-- `GeminiClient.call_with_retry` with its default `max_retries=2`
(three total attempts). -/
def call_with_retry (resps : ℕ → String) (max_retries : ℕ) : Except String String :=
  callLoop resps 0 max_retries

/-- A JSON value that is either a list of strings or something else
(Python `isinstance(x, list)` test). -/
inductive ListVal where
  | ls : List String → ListVal
  | notList : ListVal

/-- The parsed authenticity payload as `AuthenticityAnalyzer.analyze`
reads it (`data.get` with defaults `65` / `[]` / `[]`). -/
structure AuthData where
  score : Option JNum
  indicators : ListVal
  red_flags : ListVal

/-- The normalized authenticity step result. -/
structure AuthResultR where
  score : ℚ
  indicators : List String
  red_flags : List String
deriving DecidableEq

/-- `AuthenticityAnalyzer._default_result` (lines 76–81). -/
def default_result : AuthResultR :=
  { score := 65,
    indicators := ["defaulted due to processing error"],
    red_flags := [] }

/-- One row of `AIAuditLog` as the assessors create it. -/
structure AuditEntry where
  validation_step : String
  success : Bool
  raw_response : String
  error_message : String
deriving DecidableEq

/-- `float(data.get(key, 65) or 65)`: falsy values take the default,
truthy non-numbers raise (modelled as `.error`). -/
def floatOr65 : JNum → Except String ℚ
  | .jnull => .ok 65
  | .jbadFalsy => .ok 65
  | .jnum q => .ok (if q = 0 then 65 else q)
  | .jbadTruthy => .error "could not convert value to float"

/-- `AuthenticityAnalyzer.analyze` (lines 30–74) after a successful image
decode: gateway call with retries, one audit row, safe default on
gateway or JSON failure, `[50, 100]` clamp on success.  `parse`
abstracts `ResponseParser.parse_json` composed with field lookup; the
outer `.error` is the uncaught `float` exception. -/
def analyze (resps : ℕ → String) (parse : String → Option AuthData) :
    Except String ((Bool × Option AuthResultR) × AuditEntry) :=
  match call_with_retry resps 2 with
  | .error e =>
      .ok ((true, some default_result),
        { validation_step := "authenticity", success := false,
          raw_response := e, error_message := e })
  | .ok resp =>
      let audit : AuditEntry :=
        { validation_step := "authenticity", success := true,
          raw_response := resp, error_message := "" }
      match parse resp with
      | none => .ok ((true, some default_result), audit)
      | some data =>
          match floatOr65 (getNum data.score 65) with
          | .error e => .error e
          | .ok raw_score =>
              let score := max 50 (min 100 raw_score)
              let inds := match data.indicators with | .ls l => l | .notList => []
              let flags := match data.red_flags with | .ls l => l | .notList => []
              .ok ((true, some { score := score, indicators := inds.take 10,
                                 red_flags := flags.take 10 }), audit)

/- ── ValidationOrchestrator (ai_validation/services/orchestrator.py) ── -/

/-- `MIN_AUTO_APPROVE_CONFIDENCE` from `ai_validation/constants.py`. -/
def MIN_AUTO_APPROVE_CONFIDENCE : ℚ := 55

/-- The readability checker's success payload (quality score is always a
number: `Decimal(str(data.get('quality_score', 0)))`). -/
structure ReadabilityResult where
  is_readable : Bool
  quality_score : ℚ
  issues : List String

/-- The relevance classifier's success payload. -/
structure RelevanceResult where
  is_relevant : Bool
  document_type : String
  confidence : ℚ

/-- The `ExtractedMetadata` fields the orchestrator reads. -/
structure Metadata where
  co2_extraction_confidence : Option ℚ
  issue_date_confidence : Option ℚ
  expiry_date_confidence : Option ℚ
  issuing_authority_confidence : Option ℚ
  expiry_date : Option ℤ
deriving DecidableEq

/-- The `DocumentValidation` row (timestamp columns omitted). -/
structure ValidationRecord where
  status : String
  current_step : String
  readability_passed : Option Bool
  readability_score : Option ℚ
  readability_issues : List String
  is_relevant : Option Bool
  detected_document_type : String
  relevance_confidence : Option ℚ
  authenticity_score : Option ℚ
  authenticity_indicators : List String
  authenticity_red_flags : List String
  overall_confidence : Option ℚ
  retry_count : ℕ
  error_message : String
  requires_manual_review : Bool
  flagged_reason : String
deriving DecidableEq

/-- The source document's columns the pipeline writes. -/
structure DocumentRec where
  status : String
  expiry_date : Option ℤ
deriving DecidableEq

/-- The defaults passed to `ManualReviewQueue.objects.get_or_create`. -/
structure ReviewRequest where
  priority : String
  reason : String
deriving DecidableEq

/-- The outcomes of the collaborator calls a single
`validate_document` run makes: preprocessing, the three AI assessors
(`none` models a step that returned `success=False`), and metadata
extraction (`.error` models the hard save failure; `.ok none` the
degenerate row-creation failure that still reports success). -/
structure Env where
  preprocess : Except String Unit
  readability : Option ReadabilityResult
  relevance : Option RelevanceResult
  authenticity : Option AuthResultR
  extraction : Except String (Option Metadata)

/-- The observable outcome of one `validate_document` run: the final
validation and document rows, the manual-review request made (if any),
and which pipeline stages executed. -/
structure PipelineOut where
  validation : ValidationRecord
  document : DocumentRec
  review : Option ReviewRequest
  steps_run : List String

/-- `ValidationOrchestrator._calculate_confidence` (lines 160–189).
Numeric interpolation aside, this is the exact weighted sum: missing or
zero step scores are replaced by 70/60/60 through Python `or`, the
extraction bucket averages the non-null field confidences with 30 when
none exist, and the result is rounded to two decimals (never clamped). -/
def calculate_confidence (v : ValidationRecord) (metadata : Option Metadata) : ℚ :=
  let s1 := pyOr v.readability_score 70 * (10 / 100 : ℚ)
  let s2 := pyOr v.relevance_confidence 60 * (25 / 100 : ℚ)
  let s3 := pyOr v.authenticity_score 60 * (25 / 100 : ℚ)
  let avg_extraction : ℚ :=
    match metadata with
    | some m =>
        let values := [m.co2_extraction_confidence, m.issue_date_confidence,
                       m.expiry_date_confidence,
                       m.issuing_authority_confidence].filterMap id
        if values.length = 0 then 30 else values.sum / values.length
    | none => 30
  round2 (s1 + s2 + s3 + avg_extraction * (40 / 100 : ℚ))

/-- `ValidationOrchestrator._check_flag` (lines 191–207).  The reason
strings keep their fixed prefixes; interpolated numbers are omitted. -/
def check_flag (v : ValidationRecord) : Bool × String :=
  let conf := pyOr v.overall_confidence 0
  let r1 : List String :=
    if conf < MIN_AUTO_APPROVE_CONFIDENCE then ["Low confidence"] else []
  let r2 : List String :=
    if 3 ≤ v.authenticity_red_flags.length then ["Multiple authenticity concerns"] else []
  let r3 : List String :=
    if v.is_relevant = some false then ["Document may not be a compliance document"] else []
  let reasons := r1 ++ r2 ++ r3
  if reasons = [] then (false, "") else (true, String.intercalate "; " reasons)

/-- `ValidationOrchestrator._get_priority` (lines 209–217). -/
def get_priority (v : ValidationRecord) : String :=
  if 3 ≤ v.authenticity_red_flags.length then "high"
  else
    let conf := pyOr v.overall_confidence 0
    if conf < 40 then "high"
    else if conf < MIN_AUTO_APPROVE_CONFIDENCE then "medium"
    else "low"

/-- `ValidationOrchestrator._mark_failed` (lines 219–236): fail the
record, request a high-priority manual review, invalidate the document,
and return without running any further step. -/
def mark_failed (v : ValidationRecord) (d : DocumentRec) (step error : String)
    (steps_run : List String) : PipelineOut :=
  let v2 := { v with status := "failed", current_step := step,
                     error_message := pyTake 1000 error,
                     requires_manual_review := true,
                     flagged_reason := "Failed at " ++ step ++ ": " ++ error }
  { validation := v2,
    document := { d with status := "invalid" },
    review := some { priority := "high", reason := "Validation failed at " ++ step },
    steps_run := steps_run }

/-- `ValidationOrchestrator.validate_document` (lines 28–152) as a
function of the collaborator outcomes.  The risk-calculator call is
modelled only as the `risk_analysis` stage marker, since its failure is
explicitly non-fatal and it does not touch the validation record. -/
def validate_document (env : Env) (v0 : ValidationRecord) (d0 : DocumentRec) :
    PipelineOut :=
  let v1 := { v0 with current_step := "readability" }
  match env.preprocess with
  | .error err => mark_failed v1 d0 "preprocessing" err ["preprocess"]
  | .ok _ =>
      let v2 :=
        match env.readability with
        | some res =>
            { v1 with readability_passed := some res.is_readable,
                      readability_score := some res.quality_score,
                      readability_issues := res.issues }
        | none =>
            { v1 with readability_passed := some true, readability_score := none,
                      readability_issues := [] }
      let score := pyOr v2.readability_score 100
      if v2.readability_passed = some false ∧ score < 20 then
        mark_failed v2 d0 "readability" "Document unreadable"
          ["preprocess", "readability"]
      else
        let v3 :=
          match env.relevance with
          | some res =>
              { v2 with current_step := "relevance", is_relevant := some res.is_relevant,
                        detected_document_type := res.document_type,
                        relevance_confidence := some res.confidence }
          | none =>
              { v2 with current_step := "relevance", is_relevant := some true,
                        detected_document_type := "Emission Report",
                        relevance_confidence := none }
        let v4 :=
          match env.authenticity with
          | some res =>
              { v3 with current_step := "authenticity",
                        authenticity_score := some res.score,
                        authenticity_indicators := res.indicators,
                        authenticity_red_flags := res.red_flags }
          | none =>
              { v3 with current_step := "authenticity", authenticity_score := none,
                        authenticity_indicators := [], authenticity_red_flags := [] }
        let v5 := { v4 with current_step := "extraction" }
        match env.extraction with
        | .error err =>
            mark_failed v5 d0 "extraction" err
              ["preprocess", "readability", "relevance", "authenticity", "extraction"]
        | .ok metadata =>
            let conf := calculate_confidence v5 metadata
            let v6 := { v5 with overall_confidence := some conf }
            let fr := check_flag v6
            let should_flag := fr.1
            let v7 := { v6 with requires_manual_review := should_flag,
                                flagged_reason := if should_flag then fr.2 else "" }
            let review : Option ReviewRequest :=
              if should_flag then some { priority := get_priority v7, reason := fr.2 }
              else none
            let v8 := { v7 with current_step := "risk_analysis" }
            let v9 := { v8 with status := "completed", current_step := "completed" }
            let d1 := { d0 with
                        status := if should_flag then "flagged" else "valid",
                        expiry_date :=
                          match metadata with
                          | some m =>
                              match m.expiry_date with
                              | some e => some e
                              | none => d0.expiry_date
                          | none => d0.expiry_date }
            { validation := v9, document := d1, review := review,
              steps_run := ["preprocess", "readability", "relevance", "authenticity",
                            "extraction", "risk_analysis"] }

/- ── Worker task (ai_validation/tasks.py) ──────────────────────────── -/

/-- The record created by `DocumentValidation.objects.get_or_create`
defaults plus the model-level column defaults. -/
def freshValidation : ValidationRecord :=
  { status := "processing", current_step := "not_started",
    readability_passed := none, readability_score := none,
    readability_issues := [], is_relevant := none,
    detected_document_type := "", relevance_confidence := none,
    authenticity_score := none, authenticity_indicators := [],
    authenticity_red_flags := [], overall_confidence := none,
    retry_count := 0, error_message := "", requires_manual_review := false,
    flagged_reason := "" }

/-- The in-place reset of an existing record in
`validate_document_async` (lines 42–49): status, step, error text and
retry counter are reset; all other columns keep their previous values. -/
def reset_validation (v : ValidationRecord) : ValidationRecord :=
  { v with status := "processing", current_step := "not_started",
           error_message := "", retry_count := 0 }

/-- The trigger boundary of `validate_document_async` (lines 34–49) on
the set of validation records of one document: `get_or_create` under the
row lock either creates the single record or reuses the existing one. -/
def trigger (recs : List ValidationRecord) : List ValidationRecord :=
  match recs with
  | [] => [freshValidation]
  | r :: rest => reset_validation r :: rest

/-- The exception-recovery block of `validate_document_async`
(lines 95–100): mark the record failed with the exception text and bump
the retry counter — nothing else is written. -/
def worker_recover (e : String) (v : ValidationRecord) : ValidationRecord :=
  { v with status := "failed", error_message := e,
           retry_count := v.retry_count + 1 }

/- ── RiskCalculator (ai_validation/services/risk_calculator.py) ────── -/

/-- One `IndustryEmissionThreshold` row. -/
structure Threshold where
  low_threshold : ℚ
  medium_threshold : ℚ
  high_threshold : ℚ
  critical_threshold : ℚ

/-- `RiskCalculator._risk_level` (lines 105–119). -/
def risk_level (emissions : ℚ) (t : Threshold) (total_docs validated_docs : ℕ) :
    String :=
  if validated_docs = 0 then "medium"
  else if emissions = 0 then
    let coverage : ℚ :=
      if 0 < total_docs then (validated_docs : ℚ) / (total_docs : ℚ) else 0
    if coverage < 1 / 2 then "high" else "medium"
  else if emissions ≤ t.low_threshold then "low"
  else if emissions ≤ t.medium_threshold then "medium"
  else if emissions ≤ t.high_threshold then "high"
  else "critical"

/- ── Spec-side definition for the refinement claim on confidence ───── -/

/-- Modelled from the spec (§4.5, amended): the Confidence Aggregator as
one weighted sum with weights 0.10 / 0.25 / 0.25 / 0.40, a missing or
zero step score replaced by its neutral default (70 readability, 60
relevance, 60 authenticity), the extraction bucket the mean of the
present field confidences with 30 substituted when none are present, and
the result rounded to two decimal places. -/
def specOverallConfidence (readability relevance authenticity : Option ℚ)
    (fields : List (Option ℚ)) : ℚ :=
  let step : Option ℚ → ℚ → ℚ := fun x d =>
    match x with
    | none => d
    | some q => if q = 0 then d else q
  let present := fields.filterMap id
  let extraction : ℚ := if present = [] then 30 else present.sum / present.length
  round2 ((10 * step readability 70 + 25 * step relevance 60 +
           25 * step authenticity 60 + 40 * extraction) / 100)

/-- The four per-field extraction confidences the orchestrator's
confidence computation reads from a metadata row, in source order. -/
def metadataFields : Option Metadata → List (Option ℚ)
  | some m => [m.co2_extraction_confidence, m.issue_date_confidence,
               m.expiry_date_confidence, m.issuing_authority_confidence]
  | none => []

/- ── Concrete instances used by witnesses and counterexamples ──────── -/

/-- A source document before validation. -/
def docInitial : DocumentRec := { status := "uploaded", expiry_date := none }

/-- A metadata row with every extracted field null. -/
def metaNone : Metadata :=
  { co2_extraction_confidence := none, issue_date_confidence := none,
    expiry_date_confidence := none, issuing_authority_confidence := none,
    expiry_date := none }

/-- A metadata row with every field confidence equal to 100. -/
def meta100 : Metadata :=
  { co2_extraction_confidence := some 100, issue_date_confidence := some 100,
    expiry_date_confidence := some 100, issuing_authority_confidence := some 100,
    expiry_date := none }

/-- A metadata row with every field confidence equal to 85. -/
def meta85 : Metadata :=
  { co2_extraction_confidence := some 85, issue_date_confidence := some 85,
    expiry_date_confidence := some 85, issuing_authority_confidence := some 85,
    expiry_date := none }

/-- An environment in which every collaborator succeeds but the model
assesses the document unreadable with quality score exactly 0 (the
model's own default when the score key is missing). -/
def envUnreadableZero : Env :=
  { preprocess := .ok (),
    readability := some { is_readable := false, quality_score := 0, issues := [] },
    relevance := none, authenticity := none, extraction := .ok (some metaNone) }

/-- A validation record carrying an out-of-range readability score (the
checker stores the model's quality score unclamped) and in-range scores
elsewhere. -/
def vOverscore : ValidationRecord :=
  { freshValidation with readability_score := some 150,
                         relevance_confidence := some 100,
                         authenticity_score := some 100 }

/-- A validation record with the spec's worked-scenario step scores
(90 / 75 / 80). -/
def vScenario : ValidationRecord :=
  { freshValidation with readability_score := some 90,
                         relevance_confidence := some 75,
                         authenticity_score := some 80 }

/-- An environment whose preprocessing step fails. -/
def envPreFail : Env :=
  { preprocess := .error "File not found", readability := none, relevance := none,
    authenticity := none, extraction := .ok none }

/-- An environment in which the authenticity step fell back to its safe
default and everything else succeeds. -/
def envAuthDefault : Env :=
  { preprocess := .ok (), readability := none, relevance := none,
    authenticity := some default_result, extraction := .ok (some metaNone) }

/-- A validation record whose overall confidence is 50, below the
auto-approve threshold. -/
def vConf50 : ValidationRecord :=
  { freshValidation with overall_confidence := some 50 }

/-- The `'default'` row of `DEFAULT_THRESHOLDS` in
`ai_validation/constants.py`. -/
def tDefault : Threshold :=
  { low_threshold := 1000, medium_threshold := 5000,
    high_threshold := 10000, critical_threshold := 50000 }

/-- A terminal (completed) validation record still carrying its step
outputs. -/
def vCompletedStale : ValidationRecord :=
  { freshValidation with status := "completed",
                         readability_score := some 80,
                         overall_confidence := some 90 }

/- ════════════════════════ Theorems ════════════════════════ -/

/- General-purpose helper lemmas, shared across claims. -/

theorem pyOr_some_zero (c : ℚ) : pyOr (some c) 0 = c := by
  by_cases h : c = 0 <;> simp [pyOr, h]

theorem clamp100_bounds (x : ℚ) : 0 ≤ clamp100 x ∧ clamp100 x ≤ 100 := by
  unfold clamp100
  constructor
  · exact le_max_left 0 _
  · exact max_le (by norm_num) (min_le_left 100 x)

theorem safe_decimal_bounds (v : JNum) (d : ℚ) (h0 : 0 ≤ d) (h1 : d ≤ 100) :
    0 ≤ safe_decimal v d ∧ safe_decimal v d ≤ 100 := by
  cases v with
  | jnull => exact clamp100_bounds d
  | jbadFalsy => exact clamp100_bounds d
  | jbadTruthy => exact ⟨h0, h1⟩
  | jnum q =>
      simp only [safe_decimal]
      split
      · exact clamp100_bounds d
      · exact clamp100_bounds q

theorem pyOr_bounds (x : Option ℚ) (d : ℚ) (h0 : 0 ≤ d) (h1 : d ≤ 100)
    (hx : ∀ q, x = some q → 0 ≤ q ∧ q ≤ 100) :
    0 ≤ pyOr x d ∧ pyOr x d ≤ 100 := by
  cases x with
  | none => exact ⟨h0, h1⟩
  | some q =>
      simp only [pyOr]
      split
      · exact ⟨h0, h1⟩
      · exact hx q rfl

theorem sum_le_hundred_mul_length (l : List ℚ) (hb : ∀ q ∈ l, q ≤ 100) :
    l.sum ≤ 100 * l.length := by
  induction l with
  | nil => simp
  | cons a t ih =>
      simp only [List.sum_cons, List.length_cons]
      have ha : a ≤ 100 := hb a (List.mem_cons_self a t)
      have ht := ih fun q hq => hb q (List.mem_cons_of_mem a hq)
      push_cast
      linarith

theorem sum_div_length_bounds (l : List ℚ) (hne : l ≠ [])
    (hb : ∀ q ∈ l, 0 ≤ q ∧ q ≤ 100) :
    0 ≤ l.sum / l.length ∧ l.sum / l.length ≤ 100 := by
  have hlen : 0 < (l.length : ℚ) := by
    have : 0 < l.length := List.length_pos.mpr hne
    exact_mod_cast this
  have hsum0 : 0 ≤ l.sum := List.sum_nonneg fun q hq => (hb q hq).1
  have hsum1 : l.sum ≤ 100 * l.length := sum_le_hundred_mul_length l fun q hq => (hb q hq).2
  constructor
  · positivity
  · rw [div_le_iff₀ hlen]
    linarith

theorem round2_bounds (x : ℚ) (h0 : 0 ≤ x) (h1 : x ≤ 100) :
    0 ≤ round2 x ∧ round2 x ≤ 100 := by
  unfold round2
  have e : ∀ y : ℚ, round y = Int.floor (y + 1 / 2) := fun y => round_eq y
  have lo : (0 : ℤ) ≤ round (x * 100) := by
    rw [e]
    have : ((0 : ℤ) : ℚ) ≤ x * 100 + 1 / 2 := by push_cast; linarith
    exact Int.le_floor.mpr this
  have hi : round (x * 100) ≤ 10000 := by
    rw [e]
    have h2 : x * 100 + 1 / 2 < ((10001 : ℤ) : ℚ) := by push_cast; linarith
    have h3 := Int.floor_lt.mpr h2
    omega
  constructor
  · have : (0 : ℚ) ≤ ((round (x * 100) : ℤ) : ℚ) := by exact_mod_cast lo
    exact div_nonneg this (by norm_num)
  · have : ((round (x * 100) : ℤ) : ℚ) ≤ 10000 := by exact_mod_cast hi
    rw [div_le_iff₀ (by norm_num : (0 : ℚ) < 100)]
    linarith

theorem validate_date_iff (parsed : ℤ) (e : Bool) (today : ℤ) :
    validate_date parsed e today = true ↔
      (dateFloor ≤ parsed ∧ parsed ≤ dateCeil ∧ (e = true ∨ parsed ≤ today + 30)) := by
  cases e <;> simp only [validate_date] <;> split_ifs <;> simp_all

/-- Claim C6 (confirmed): date validation is asymmetric between issue
and expiry dates — for every parseable date, dates before 2000-01-01 or
after 2050-12-31 are rejected for both kinds; an issue date more than 30
days after `today` is additionally rejected; an expiry date in the
future (at or under the ceiling) is accepted; and on dates more than 30
days in the future the two kinds disagree, so they do not share the
30-day rule. -/
theorem C6_date_asymmetry (parsed today : ℤ) :
    (parsed < dateFloor →
        validate_date parsed true today = false ∧
        validate_date parsed false today = false) ∧
    (dateCeil < parsed →
        validate_date parsed true today = false ∧
        validate_date parsed false today = false) ∧
    (today + 30 < parsed → validate_date parsed false today = false) ∧
    (dateFloor ≤ today → today < parsed → parsed ≤ dateCeil →
        validate_date parsed true today = true) ∧
    (dateFloor ≤ today → today + 30 < parsed → parsed ≤ dateCeil →
        validate_date parsed true today = true ∧
        validate_date parsed false today = false) := by
  have hT := validate_date_iff parsed true today
  have hF := validate_date_iff parsed false today
  refine ⟨fun h => ⟨?_, ?_⟩, fun h => ⟨?_, ?_⟩, fun h => ?_, fun h1 h2 h3 => ?_,
          fun h1 h2 h3 => ⟨?_, ?_⟩⟩
  · rw [Bool.eq_false_iff]
    intro hc
    obtain ⟨a, b, c⟩ := hT.mp hc
    omega
  · rw [Bool.eq_false_iff]
    intro hc
    obtain ⟨a, b, c⟩ := hF.mp hc
    omega
  · rw [Bool.eq_false_iff]
    intro hc
    obtain ⟨a, b, c⟩ := hT.mp hc
    omega
  · rw [Bool.eq_false_iff]
    intro hc
    obtain ⟨a, b, c⟩ := hF.mp hc
    omega
  · rw [Bool.eq_false_iff]
    intro hc
    obtain ⟨a, b, c⟩ := hF.mp hc
    rcases c with c | c
    · exact absurd c (by decide)
    · omega
  · exact hT.mpr ⟨by omega, h3, Or.inl rfl⟩
  · exact hT.mpr ⟨by omega, h3, Or.inl rfl⟩
  · rw [Bool.eq_false_iff]
    intro hc
    obtain ⟨a, b, c⟩ := hF.mp hc
    rcases c with c | c
    · exact absurd c (by decide)
    · omega

/-- Witness for C6 at concrete dates: 2027-06-01 seen from a `today` of
2026-10-12 is accepted as an expiry date and rejected as an issue
date. -/
theorem C6_witness :
    validate_date (toOrdinal 2027 6 1) true (toOrdinal 2026 10 12) = true ∧
    validate_date (toOrdinal 2027 6 1) false (toOrdinal 2026 10 12) = false :=
  (C6_date_asymmetry (toOrdinal 2027 6 1) (toOrdinal 2026 10 12)).2.2.2.2
    (by decide) (by decide) (by decide)

/-- Claim C5 (confirmed): the vendor risk level is `medium` with zero
validated documents; with validated documents but zero emissions it is
`high` when fewer than half the vendor's documents are validated and
`medium` otherwise; and with positive emissions it follows the ascending
threshold ladder low/medium/high/critical. -/
theorem C5_risk_level_policy (emissions : ℚ) (t : Threshold) (total validated : ℕ)
    (hv : validated ≤ total) :
    (validated = 0 → risk_level emissions t total validated = "medium") ∧
    (0 < validated → emissions = 0 →
        risk_level emissions t total validated =
          (if 2 * validated < total then "high" else "medium")) ∧
    (0 < validated → emissions ≠ 0 →
        risk_level emissions t total validated =
          (if emissions ≤ t.low_threshold then "low"
           else if emissions ≤ t.medium_threshold then "medium"
           else if emissions ≤ t.high_threshold then "high"
           else "critical")) := by
  refine ⟨fun h0 => ?_, fun hpos hz => ?_, fun hpos hnz => ?_⟩
  · simp [risk_level, h0]
  · have htpos : 0 < total := lt_of_lt_of_le hpos hv
    have htq : (0 : ℚ) < (total : ℚ) := by exact_mod_cast htpos
    have hne : validated ≠ 0 := Nat.pos_iff_ne_zero.mp hpos
    have hiff : ((validated : ℚ) / (total : ℚ) < 1 / 2) ↔ (2 * validated < total) := by
      rw [div_lt_iff₀ htq]
      constructor
      · intro h
        have h2 : (2 * validated : ℚ) < (total : ℚ) := by linarith
        exact_mod_cast h2
      · intro h
        have h2 : (2 * validated : ℚ) < (total : ℚ) := by exact_mod_cast h
        linarith
    simp only [risk_level, if_neg hne, if_pos hz, if_pos htpos]
    by_cases hc : 2 * validated < total
    · rw [if_pos (hiff.mpr hc), if_pos hc]
    · rw [if_neg (fun hq => hc (hiff.mp hq)), if_neg hc]
  · have hne : validated ≠ 0 := Nat.pos_iff_ne_zero.mp hpos
    simp [risk_level, hne, hnz]

/-- Witness for C5: a vendor with 1 of 4 documents validated and zero
measured emissions is rated `high`; one with 9000 tonnes against the
default thresholds is rated `high` by the ladder. -/
theorem C5_witness :
    risk_level 0 tDefault 4 1 = "high" ∧
    risk_level 9000 tDefault 4 4 = "high" := by
  constructor
  · have h := (C5_risk_level_policy 0 tDefault 4 1 (by norm_num)).2.1
      (by norm_num) rfl
    simpa using h
  · have h := (C5_risk_level_policy 9000 tDefault 4 4 (le_refl 4)).2.2
      (by norm_num) (by norm_num)
    rw [h]
    norm_num [tDefault]

/-- Claim C10 (confirmed): every non-null per-field confidence produced
by `_clean_data` — and therefore stored on the `ExtractedMetadata` row —
lies in `[0, 100]`, because `_safe_decimal` clamps numeric values and
substitutes an in-range default otherwise; a rejected CO2 value forces
its confidence to exactly 0 (and the value itself to null). -/
theorem C10_confidence_invariant (today : ℤ) (data : RawData) :
    (∀ q, (clean_data today data).co2_confidence = some q → 0 ≤ q ∧ q ≤ 100) ∧
    (∀ q, (clean_data today data).issue_date_confidence = some q → 0 ≤ q ∧ q ≤ 100) ∧
    (∀ q, (clean_data today data).expiry_date_confidence = some q → 0 ≤ q ∧ q ≤ 100) ∧
    (∀ q, (clean_data today data).issuing_authority_confidence = some q →
        0 ≤ q ∧ q ≤ 100) ∧
    ((validate_co2_value data.co2_value).1 = false →
        (clean_data today data).co2_confidence = some 0 ∧
        (clean_data today data).co2_value = none) := by
  have hb : ∀ v : JNum, 0 ≤ safe_decimal v 0 ∧ safe_decimal v 0 ≤ 100 :=
    fun v => safe_decimal_bounds v 0 (le_refl 0) (by norm_num)
  rcases hres : validate_co2_value data.co2_value with ⟨b, r⟩
  refine ⟨?_, ?_, ?_, ?_, ?_⟩
  · intro q hq
    cases b <;> cases r <;> simp only [clean_data, hres, Option.some.injEq] at hq <;>
      (try subst hq) <;> first | exact ⟨le_refl 0, by norm_num⟩ | exact hb _
  · intro q hq
    cases hd : data.issue_date with
    | dnull => simp only [clean_data, hd] at hq; cases hq
    | dbad => simp only [clean_data, hd] at hq; cases hq
    | dparsed ord =>
        simp only [clean_data, hd] at hq
        by_cases hvd : validate_date ord false today = true
        · rw [if_pos hvd] at hq
          injection hq with h
          subst h
          exact hb _
        · rw [if_neg hvd] at hq
          cases hq
  · intro q hq
    cases hd : data.expiry_date with
    | dnull => simp only [clean_data, hd] at hq; cases hq
    | dbad => simp only [clean_data, hd] at hq; cases hq
    | dparsed ord =>
        simp only [clean_data, hd] at hq
        by_cases hvd : validate_date ord true today = true
        · rw [if_pos hvd] at hq
          injection hq with h
          subst h
          exact hb _
        · rw [if_neg hvd] at hq
          cases hq
  · intro q hq
    simp only [clean_data, Option.some.injEq] at hq
    subst hq
    exact hb _
  · intro hfail
    simp only [Prod.fst] at hfail
    subst hfail
    cases r <;> simp [clean_data, hres]

/-- Witness for C10: a payload with a negative CO2 value and an
out-of-range issue-date confidence yields a zero CO2 confidence, a null
CO2 value, and a clamped issue-date confidence of 100. -/
theorem C10_witness :
    (validate_co2_value (CO2Val.cnum (-50))).1 = false ∧
    (clean_data (toOrdinal 2026 10 12)
      { co2_value := CO2Val.cnum (-50), co2_confidence := some (JNum.jnum 80),
        issue_date := RawDate.dparsed (toOrdinal 2025 1 15),
        issue_date_confidence := some (JNum.jnum 250),
        expiry_date := RawDate.dnull, expiry_date_confidence := none,
        issuing_authority_confidence := none }).co2_confidence = some 0 ∧
    (clean_data (toOrdinal 2026 10 12)
      { co2_value := CO2Val.cnum (-50), co2_confidence := some (JNum.jnum 80),
        issue_date := RawDate.dparsed (toOrdinal 2025 1 15),
        issue_date_confidence := some (JNum.jnum 250),
        expiry_date := RawDate.dnull, expiry_date_confidence := none,
        issuing_authority_confidence := none }).co2_value = none ∧
    (∀ q, (clean_data (toOrdinal 2026 10 12)
      { co2_value := CO2Val.cnum (-50), co2_confidence := some (JNum.jnum 80),
        issue_date := RawDate.dparsed (toOrdinal 2025 1 15),
        issue_date_confidence := some (JNum.jnum 250),
        expiry_date := RawDate.dnull, expiry_date_confidence := none,
        issuing_authority_confidence := none }).issue_date_confidence = some q →
        0 ≤ q ∧ q ≤ 100) := by
  have h := C10_confidence_invariant (toOrdinal 2026 10 12)
    { co2_value := CO2Val.cnum (-50), co2_confidence := some (JNum.jnum 80),
      issue_date := RawDate.dparsed (toOrdinal 2025 1 15),
      issue_date_confidence := some (JNum.jnum 250),
      expiry_date := RawDate.dnull, expiry_date_confidence := none,
      issuing_authority_confidence := none }
  exact ⟨by decide, (h.2.2.2.2 (by decide)).1, (h.2.2.2.2 (by decide)).2, h.2.1⟩

/-- Claim C3 (confirmed): a completed validation (overall confidence
set) requires manual review iff its confidence is below the auto-approve
threshold 55, or it has at least three authenticity red flags, or
relevance was explicitly assessed false; and the review priority is
`high` when red flags ≥ 3 or confidence < 40, `medium` when confidence
is below the threshold, `low` otherwise. -/
theorem C3_review_policy (v : ValidationRecord) (c : ℚ)
    (hc : v.overall_confidence = some c) :
    ((check_flag v).1 = true ↔
      (c < MIN_AUTO_APPROVE_CONFIDENCE ∨ 3 ≤ v.authenticity_red_flags.length ∨
       v.is_relevant = some false)) ∧
    get_priority v =
      (if 3 ≤ v.authenticity_red_flags.length ∨ c < 40 then "high"
       else if c < MIN_AUTO_APPROVE_CONFIDENCE then "medium" else "low") := by
  have hpy : pyOr v.overall_confidence 0 = c := by rw [hc]; exact pyOr_some_zero c
  constructor
  · by_cases h1 : c < MIN_AUTO_APPROVE_CONFIDENCE <;>
      by_cases h2 : 3 ≤ v.authenticity_red_flags.length <;>
      by_cases h3 : v.is_relevant = some false <;>
      simp [check_flag, hpy, h1, h2, h3]
  · by_cases h2 : 3 ≤ v.authenticity_red_flags.length
    · simp [get_priority, h2]
    · by_cases h4 : c < 40
      · have h1 : c < MIN_AUTO_APPROVE_CONFIDENCE := by
          unfold MIN_AUTO_APPROVE_CONFIDENCE; linarith
        simp [get_priority, hpy, h2, h4]
      · by_cases h1 : c < MIN_AUTO_APPROVE_CONFIDENCE <;>
          simp [get_priority, hpy, h2, h4, h1]

/-- Witness for C3: a record whose only trigger is confidence 50 (< 55)
is flagged for review at `medium` priority. -/
theorem C3_witness :
    (check_flag vConf50).1 = true ∧ get_priority vConf50 = "medium" := by
  have h := C3_review_policy vConf50 50 rfl
  constructor
  · exact h.1.mpr (Or.inl (by norm_num [MIN_AUTO_APPROVE_CONFIDENCE]))
  · rw [h.2]
    norm_num [vConf50, freshValidation, MIN_AUTO_APPROVE_CONFIDENCE]

/-- Counterexample for C9: on the empty input the parser does not
produce the "no valid JSON found" failure the claim describes for
inputs on which every strategy fails — it short-circuits to the distinct
message `"Empty response"`. -/
theorem C9_counterexample :
    parse_json (fun _ => (none : Option Unit)) "" = .error "Empty response" ∧
    "Empty response" ≠ "No valid JSON found: " ++ pyTake 200 "" := by
  constructor
  · rfl
  · decide

/-- Claim C9 (amended): for every non-empty input, `parse_json` attempts
in order — direct parse of the stripped text, parse after removing code
fences, parse of the greedy regex brace block, parse of the
first-brace-to-last-brace slice — with first success winning, and when
all fail it returns the "No valid JSON found" failure carrying the first
200 characters of the input; the empty input short-circuits to the
failure `"Empty response"`.  Totality of the function is the "never
raises" guarantee. -/
theorem C9_parse_strategies (J : Type) (loads : String → Option J) (text : String) :
    (∀ v, text ≠ "" → loads (pyStrip text) = some v →
        parse_json loads text = .ok v) ∧
    (∀ v, text ≠ "" → loads (pyStrip text) = none →
        loads (stripFences text) = some v → parse_json loads text = .ok v) ∧
    (∀ b v, text ≠ "" → loads (pyStrip text) = none →
        loads (stripFences text) = none → regexBlock text = some b →
        loads b = some v → parse_json loads text = .ok v) ∧
    (∀ s v, text ≠ "" → loads (pyStrip text) = none →
        loads (stripFences text) = none →
        (∀ b, regexBlock text = some b → loads b = none) →
        braceSlice text = some s → loads s = some v →
        parse_json loads text = .ok v) ∧
    (text ≠ "" → loads (pyStrip text) = none → loads (stripFences text) = none →
        (∀ b, regexBlock text = some b → loads b = none) →
        (∀ s, braceSlice text = some s → loads s = none) →
        parse_json loads text = .error ("No valid JSON found: " ++ pyTake 200 text)) ∧
    parse_json loads "" = .error "Empty response" := by
  refine ⟨?_, ?_, ?_, ?_, ?_, ?_⟩
  · intro v hne h1
    simp [parse_json, hne, h1]
  · intro v hne h1 h2
    simp [parse_json, hne, h1, h2]
  · intro b v hne h1 h2 hb hv
    simp [parse_json, hne, h1, h2, hb, hv]
  · intro s v hne h1 h2 hb hs hv
    simp only [parse_json, if_neg hne, h1, h2, hs, hv]
    cases hrb : regexBlock text with
    | none => simp
    | some b => simp [hb b hrb]
  · intro hne h1 h2 hb hs
    simp only [parse_json, if_neg hne, h1, h2]
    cases hrb : regexBlock text with
    | none =>
        cases hbs : braceSlice text with
        | none => simp
        | some s => simp [hs s hbs]
    | some b =>
        cases hbs : braceSlice text with
        | none => simp [hb b hrb]
        | some s => simp [hb b hrb, hs s hbs]
  · rfl

/-- Witness for C9: a loader that always fails on the input `"x"`
produces the bounded-preview failure message. -/
theorem C9_witness :
    parse_json (fun _ => (none : Option Unit)) "x" =
      .error ("No valid JSON found: " ++ pyTake 200 "x") :=
  (C9_parse_strategies Unit (fun _ => none) "x").2.2.2.2.1
    (by decide) rfl rfl (fun _ _ => rfl) (fun _ _ => rfl)

/-- Counterexample for C4: re-triggering on a terminal record reuses the
record but does not clear its step result fields — the stale overall
confidence and readability score survive the reset. -/
theorem C4_counterexample :
    trigger [vCompletedStale] = [reset_validation vCompletedStale] ∧
    (reset_validation vCompletedStale).overall_confidence = some 90 ∧
    (reset_validation vCompletedStale).readability_score = some 80 ∧
    (reset_validation vCompletedStale).overall_confidence ≠ none := by
  refine ⟨rfl, rfl, rfl, by decide⟩

/-- Claim C4 (amended): the trigger boundary keeps at most one
validation record per document — triggering with no record creates
exactly one, triggering twice in succession still leaves exactly one,
and an existing record (in flight or terminal) is reused in place with
status, current step, error message and retry count reset while the
per-step result fields are left to be overwritten by the re-run. -/
theorem C4_trigger_idempotent :
    (∀ l : List ValidationRecord, l.length ≤ 1 → (trigger l).length = 1) ∧
    (∀ l : List ValidationRecord, l.length ≤ 1 → (trigger (trigger l)).length = 1) ∧
    (∀ r rest, trigger (r :: rest) = reset_validation r :: rest) ∧
    (∀ r : ValidationRecord,
        (reset_validation r).status = "processing" ∧
        (reset_validation r).current_step = "not_started" ∧
        (reset_validation r).error_message = "" ∧
        (reset_validation r).retry_count = 0 ∧
        (reset_validation r).readability_score = r.readability_score ∧
        (reset_validation r).overall_confidence = r.overall_confidence ∧
        (reset_validation r).requires_manual_review = r.requires_manual_review) ∧
    (∀ r2 ∈ trigger (trigger []), r2.status = "processing") := by
  refine ⟨?_, ?_, ?_, ?_, ?_⟩
  · intro l hl
    cases l with
    | nil => rfl
    | cons r rest =>
        simp only [List.length_cons] at hl
        have hrest : rest = [] :=
          List.eq_nil_of_length_eq_zero
            (Nat.le_zero.mp (Nat.le_of_succ_le_succ hl))
        subst hrest
        rfl
  · intro l hl
    cases l with
    | nil => rfl
    | cons r rest =>
        simp only [List.length_cons] at hl
        have hrest : rest = [] :=
          List.eq_nil_of_length_eq_zero
            (Nat.le_zero.mp (Nat.le_of_succ_le_succ hl))
        subst hrest
        rfl
  · intro r rest
    rfl
  · intro r
    exact ⟨rfl, rfl, rfl, rfl, rfl, rfl, rfl⟩
  · intro r2 hr2
    simp only [trigger] at hr2
    rcases List.mem_singleton.mp hr2 with rfl
    rfl

/-- Witness for C4: starting from no record, one trigger and a second
immediate trigger each leave exactly one record. -/
theorem C4_witness :
    (trigger ([] : List ValidationRecord)).length = 1 ∧
    (trigger (trigger ([] : List ValidationRecord))).length = 1 :=
  ⟨C4_trigger_idempotent.1 [] (by simp), C4_trigger_idempotent.2.1 [] (by simp)⟩

theorem take_ne_nil (n : ℕ) (hn : n ≠ 0) (l : List Char) (hl : l ≠ []) :
    l.take n ≠ [] := by
  cases n with
  | zero => exact absurd rfl hn
  | succ m =>
      cases l with
      | nil => exact absurd rfl hl
      | cons a t => simp [List.take_succ_cons]

theorem pyTake_ne_empty (s : String) (h : s ≠ "") : pyTake 1000 s ≠ "" := by
  intro hc
  have h1 : s.toList.take 1000 = [] := by
    have := congrArg String.toList hc
    simpa [pyTake] using this
  have hl : s.toList ≠ [] := by
    intro he
    apply h
    cases s with
    | mk dat =>
        simp only [String.toList] at he
        simp [he]
  exact take_ne_nil 1000 (by norm_num) s.toList hl h1

/-- Counterexample for C7: the worker's exception-recovery path (for
example when the orchestrator's constructor raises before any step
runs) marks the record failed without setting
`requires_manual_review`. -/
theorem C7_counterexample :
    (worker_recover "GEMINI_API_KEY not configured in settings" freshValidation).status
      = "failed" ∧
    (worker_recover "GEMINI_API_KEY not configured in settings"
      freshValidation).requires_manual_review = false :=
  ⟨rfl, rfl⟩

/-- Claim C7 (amended): the orchestrator's `_mark_failed` guarantees
`status = failed`, a non-empty `error_message` and
`requires_manual_review = true`; the worker's exception recovery
guarantees `status = failed` and the error message but leaves
`requires_manual_review` at its previous value; within the orchestrator
pipeline, `failed` implies `requires_manual_review = true` and
`completed` implies `overall_confidence` is set. -/
theorem C7_failed_invariant :
    (∀ (v : ValidationRecord) (d : DocumentRec) (step err : String)
        (steps : List String), err ≠ "" →
        (mark_failed v d step err steps).validation.status = "failed" ∧
        (mark_failed v d step err steps).validation.error_message ≠ "" ∧
        (mark_failed v d step err steps).validation.requires_manual_review = true) ∧
    (∀ (e : String) (v : ValidationRecord),
        (worker_recover e v).status = "failed" ∧
        (worker_recover e v).error_message = e ∧
        (worker_recover e v).requires_manual_review = v.requires_manual_review) ∧
    (∀ (env : Env) (v0 : ValidationRecord) (d0 : DocumentRec),
        ((validate_document env v0 d0).validation.status = "failed" →
            (validate_document env v0 d0).validation.requires_manual_review = true) ∧
        ((validate_document env v0 d0).validation.status = "completed" →
            (validate_document env v0 d0).validation.overall_confidence.isSome = true)) := by
  refine ⟨?_, ?_, ?_⟩
  · intro v d step err steps herr
    exact ⟨rfl, pyTake_ne_empty err herr, rfl⟩
  · intro e v
    exact ⟨rfl, rfl, rfl⟩
  · intro env v0 d0
    rcases env with ⟨p, rd, rel, au, ex⟩
    cases p with
    | error e =>
        exact ⟨fun _ => rfl, fun h => absurd h (by decide : ¬("failed" = "completed"))⟩
    | ok u =>
        cases u
        cases rd with
        | none =>
            cases rel <;> cases au <;> cases ex <;>
              first
                | exact ⟨fun _ => rfl,
                         fun h => absurd h (by decide : ¬("failed" = "completed"))⟩
                | exact ⟨fun h => absurd h (by decide : ¬("completed" = "failed")),
                         fun _ => rfl⟩
        | some res =>
            cases rel <;> cases au <;> cases ex <;>
              · simp only [validate_document]
                split
                · exact ⟨fun _ => rfl,
                         fun h => absurd h (by decide : ¬("failed" = "completed"))⟩
                · first
                    | exact ⟨fun _ => rfl,
                             fun h => absurd h (by decide : ¬("failed" = "completed"))⟩
                    | exact ⟨fun h => absurd h (by decide : ¬("completed" = "failed")),
                             fun _ => rfl⟩

/-- Witness for C7: `_mark_failed` at a concrete record and error. -/
theorem C7_witness :
    (mark_failed freshValidation docInitial "extraction" "boom" []).validation.status
        = "failed" ∧
    (mark_failed freshValidation docInitial "extraction"
        "boom" []).validation.error_message ≠ "" ∧
    (mark_failed freshValidation docInitial "extraction"
        "boom" []).validation.requires_manual_review = true :=
  C7_failed_invariant.1 freshValidation docInitial "extraction" "boom" [] (by decide)

/-- Counterexample for C8: after exhausted retries the authenticity
step's safe default carries one marker indicator, not the empty
indicators list the claim states. -/
theorem C8_counterexample :
    analyze (fun _ => "") (fun _ => none) =
      Except.ok ((true, some default_result),
        { validation_step := "authenticity", success := false,
          raw_response := "Empty response from API",
          error_message := "Empty response from API" }) ∧
    default_result.indicators = ["defaulted due to processing error"] ∧
    default_result.indicators ≠ ([] : List String) :=
  ⟨rfl, rfl, by decide⟩

/-- Claim C8 (amended): when the gateway returns empty text on every
retry during the authenticity step, the retry loop ends in the failure
"Empty response from API", the step reports success with the safe
default — score 65, a single marker indicator, empty red flags — the
audit entry records `success = false`, and the run continues past the
authenticity step to extraction. -/
theorem C8_empty_gateway_default (parse : String → Option AuthData) :
    call_with_retry (fun _ => "") 2 = .error "Empty response from API" ∧
    analyze (fun _ => "") parse =
      Except.ok ((true, some default_result),
        { validation_step := "authenticity", success := false,
          raw_response := "Empty response from API",
          error_message := "Empty response from API" }) ∧
    default_result.score = 65 ∧
    default_result.red_flags = [] ∧
    (∀ (env : Env) (v0 : ValidationRecord) (d0 : DocumentRec),
        env.preprocess = .ok () → env.readability = none →
        env.authenticity = some default_result →
        (validate_document env v0 d0).validation.authenticity_score = some 65 ∧
        "extraction" ∈ (validate_document env v0 d0).steps_run) := by
  refine ⟨rfl, rfl, rfl, rfl, ?_⟩
  intro env v0 d0 hp hrd hau
  rcases env with ⟨p, rd, rel, au, ex⟩
  simp only at hp hrd hau
  subst hp
  subst hrd
  subst hau
  cases rel <;> cases ex <;>
    exact ⟨rfl,
      by first
        | exact show "extraction" ∈
            ["preprocess", "readability", "relevance", "authenticity",
             "extraction"] by decide
        | exact show "extraction" ∈
            ["preprocess", "readability", "relevance", "authenticity",
             "extraction", "risk_analysis"] by decide⟩

/-- Witness for C8: the default-result environment drives a concrete
pipeline run through the authenticity step to extraction. -/
theorem C8_witness :
    (validate_document envAuthDefault freshValidation
        docInitial).validation.authenticity_score = some 65 ∧
    "extraction" ∈ (validate_document envAuthDefault freshValidation
        docInitial).steps_run :=
  (C8_empty_gateway_default (fun _ => none)).2.2.2.2 envAuthDefault
    freshValidation docInitial rfl rfl rfl

/-- Counterexample for C1: a document assessed unreadable with quality
score exactly 0 (below 20) does not fail — the orchestrator's
null-coalescing read `readability_score or 100` coerces the zero score
to 100 and the gate is bypassed, so the run completes. -/
theorem C1_counterexample :
    (validate_document envUnreadableZero freshValidation
        docInitial).validation.readability_passed = some false ∧
    (validate_document envUnreadableZero freshValidation
        docInitial).validation.readability_score = some 0 ∧
    ((0 : ℚ) < 20) ∧
    (validate_document envUnreadableZero freshValidation
        docInitial).validation.status = "completed" ∧
    (validate_document envUnreadableZero freshValidation
        docInitial).validation.status ≠ "failed" :=
  ⟨rfl, rfl, by norm_num, rfl, by decide⟩

/-- Claim C1 (amended): preprocessing and extraction are hard gates, and
so is a readability verdict of unreadable with a stored quality score
that is nonzero and below 20 (a zero score is coerced to 100 by the
null-coalescing read and bypasses the gate): on each of these the
record's status becomes `failed`, a high-priority manual-review request
is made, the document is marked `invalid`, and no later pipeline step
runs. -/
theorem C1_hard_gates (env : Env) (v0 : ValidationRecord) (d0 : DocumentRec) :
    (∀ err, env.preprocess = .error err →
        (validate_document env v0 d0).validation.status = "failed" ∧
        (validate_document env v0 d0).review =
          some { priority := "high", reason := "Validation failed at preprocessing" } ∧
        (validate_document env v0 d0).document.status = "invalid" ∧
        (validate_document env v0 d0).steps_run = ["preprocess"]) ∧
    (∀ res, env.preprocess = .ok () → env.readability = some res →
        res.is_readable = false → res.quality_score ≠ 0 → res.quality_score < 20 →
        (validate_document env v0 d0).validation.status = "failed" ∧
        (validate_document env v0 d0).review =
          some { priority := "high", reason := "Validation failed at readability" } ∧
        (validate_document env v0 d0).document.status = "invalid" ∧
        (validate_document env v0 d0).steps_run = ["preprocess", "readability"]) ∧
    (∀ err, env.preprocess = .ok () → env.extraction = .error err →
        (validate_document env v0 d0).validation.status = "failed" ∧
        (∃ r, (validate_document env v0 d0).review = some r ∧ r.priority = "high") ∧
        (validate_document env v0 d0).document.status = "invalid" ∧
        "risk_analysis" ∉ (validate_document env v0 d0).steps_run) := by
  rcases env with ⟨p, rd, rel, au, ex⟩
  refine ⟨?_, ?_, ?_⟩
  · intro err hp
    simp only at hp
    subst hp
    exact ⟨rfl, rfl, rfl, rfl⟩
  · intro res hp hrd hir hq0 hq20
    simp only at hp hrd
    subst hp
    subst hrd
    simp only [validate_document]
    split
    · exact ⟨rfl, rfl, rfl, rfl⟩
    · rename_i hcond
      exfalso
      apply hcond
      constructor
      · show some res.is_readable = some false
        rw [hir]
      · show pyOr (some res.quality_score) 100 < 20
        simp only [pyOr]
        rw [if_neg hq0]
        exact hq20
  · intro err hp hex
    simp only at hp hex
    subst hp
    subst hex
    cases rd with
    | none =>
        cases rel <;> cases au <;>
          exact ⟨rfl,
            ⟨{ priority := "high", reason := "Validation failed at extraction" },
              rfl, rfl⟩, rfl,
            show "risk_analysis" ∉
              ["preprocess", "readability", "relevance", "authenticity",
               "extraction"] by decide⟩
    | some res =>
        simp only [validate_document]
        split
        · exact ⟨rfl,
            ⟨{ priority := "high", reason := "Validation failed at readability" },
              rfl, rfl⟩, rfl,
            show "risk_analysis" ∉ ["preprocess", "readability"] by decide⟩
        · cases rel <;> cases au <;>
            exact ⟨rfl,
              ⟨{ priority := "high", reason := "Validation failed at extraction" },
                rfl, rfl⟩, rfl,
              show "risk_analysis" ∉
                ["preprocess", "readability", "relevance", "authenticity",
                 "extraction"] by decide⟩

/-- Witness for C1: a failed preprocessing run at concrete inputs fails
the record, requests a high-priority review, and invalidates the
document without running any later step. -/
theorem C1_witness :
    (validate_document envPreFail freshValidation docInitial).validation.status
        = "failed" ∧
    (validate_document envPreFail freshValidation docInitial).review =
      some { priority := "high", reason := "Validation failed at preprocessing" } ∧
    (validate_document envPreFail freshValidation docInitial).document.status
        = "invalid" ∧
    (validate_document envPreFail freshValidation docInitial).steps_run
        = ["preprocess"] :=
  (C1_hard_gates envPreFail freshValidation docInitial).1 "File not found" rfl

/-- Counterexample for C2: the aggregate is not clamped to `[0, 100]` —
an unclamped readability score of 150 stored by the checker yields an
overall confidence of 105. -/
theorem C2_counterexample :
    calculate_confidence vOverscore (some meta100) = 105 ∧
    ¬(calculate_confidence vOverscore (some meta100) ≤ 100) := by
  constructor
  · norm_num [calculate_confidence, vOverscore, meta100, freshValidation, pyOr,
      round2, round_eq, List.filterMap]
  · norm_num [calculate_confidence, vOverscore, meta100, freshValidation, pyOr,
      round2, round_eq, List.filterMap]

/-- Claim C2 (amended): for every record and metadata row, the computed
overall confidence equals the spec-side weighted sum 0.10·readability +
0.25·relevance + 0.25·authenticity + 0.40·extraction in which a missing
— or, through Python truthiness, zero — step score is replaced by its
neutral default (70/60/60), the extraction bucket is the mean of the
non-null field confidences with 30 substituted when none exist, and the
result is rounded to two decimals; it is not clamped, but lies in
`[0, 100]` whenever every input does, and is deterministic (a pure
function of its inputs). -/
theorem C2_confidence_aggregation (v : ValidationRecord) (meta : Option Metadata) :
    calculate_confidence v meta =
      specOverallConfidence v.readability_score v.relevance_confidence
        v.authenticity_score (metadataFields meta) ∧
    ((∀ q, v.readability_score = some q → 0 ≤ q ∧ q ≤ 100) →
     (∀ q, v.relevance_confidence = some q → 0 ≤ q ∧ q ≤ 100) →
     (∀ q, v.authenticity_score = some q → 0 ≤ q ∧ q ≤ 100) →
     (∀ x q, x ∈ metadataFields meta → x = some q → 0 ≤ q ∧ q ≤ 100) →
     0 ≤ calculate_confidence v meta ∧ calculate_confidence v meta ≤ 100) := by
  constructor
  · cases meta with
    | none =>
        simp only [calculate_confidence, specOverallConfidence, metadataFields,
          List.filterMap_nil, eq_self_iff_true, if_true]
        cases hrs : v.readability_score <;> cases hrel : v.relevance_confidence <;>
          cases hau : v.authenticity_score <;>
            simp only [pyOr] <;> exact congrArg round2 (by ring)
    | some m =>
        simp only [calculate_confidence, specOverallConfidence, metadataFields]
        by_cases hv : ([m.co2_extraction_confidence, m.issue_date_confidence,
            m.expiry_date_confidence, m.issuing_authority_confidence].filterMap id) = []
        · have hlen : ([m.co2_extraction_confidence, m.issue_date_confidence,
              m.expiry_date_confidence,
              m.issuing_authority_confidence].filterMap id).length = 0 := by
            rw [hv]; rfl
          rw [if_pos hlen, if_pos hv]
          cases hrs : v.readability_score <;> cases hrel : v.relevance_confidence <;>
            cases hau : v.authenticity_score <;>
              simp only [pyOr] <;> exact congrArg round2 (by ring)
        · have hlen : ¬([m.co2_extraction_confidence, m.issue_date_confidence,
              m.expiry_date_confidence,
              m.issuing_authority_confidence].filterMap id).length = 0 :=
            fun h => hv (List.length_eq_zero.mp h)
          rw [if_neg hlen, if_neg hv]
          cases hrs : v.readability_score <;> cases hrel : v.relevance_confidence <;>
            cases hau : v.authenticity_score <;>
              simp only [pyOr] <;> exact congrArg round2 (by ring)
  · intro h1 h2 h3 h4
    have b1 := pyOr_bounds v.readability_score 70 (by norm_num) (by norm_num) h1
    have b2 := pyOr_bounds v.relevance_confidence 60 (by norm_num) (by norm_num) h2
    have b3 := pyOr_bounds v.authenticity_score 60 (by norm_num) (by norm_num) h3
    cases meta with
    | none =>
        simp only [calculate_confidence]
        apply round2_bounds
        · linarith [b1.1, b2.1, b3.1]
        · linarith [b1.2, b2.2, b3.2]
    | some m =>
        have hfb : ∀ q ∈ ([m.co2_extraction_confidence, m.issue_date_confidence,
            m.expiry_date_confidence, m.issuing_authority_confidence].filterMap id),
            0 ≤ q ∧ q ≤ 100 := by
          intro q hq
          rcases List.mem_filterMap.mp hq with ⟨x, hx, hxq⟩
          exact h4 x q (by simpa [metadataFields] using hx) (by simpa using hxq)
        simp only [calculate_confidence]
        by_cases hv : ([m.co2_extraction_confidence, m.issue_date_confidence,
            m.expiry_date_confidence, m.issuing_authority_confidence].filterMap id) = []
        · have hlen : ([m.co2_extraction_confidence, m.issue_date_confidence,
              m.expiry_date_confidence,
              m.issuing_authority_confidence].filterMap id).length = 0 := by
            rw [hv]; rfl
          rw [if_pos hlen]
          apply round2_bounds
          · linarith [b1.1, b2.1, b3.1]
          · linarith [b1.2, b2.2, b3.2]
        · have hlen : ¬([m.co2_extraction_confidence, m.issue_date_confidence,
              m.expiry_date_confidence,
              m.issuing_authority_confidence].filterMap id).length = 0 :=
            fun h => hv (List.length_eq_zero.mp h)
          have hb := sum_div_length_bounds _ hv hfb
          rw [if_neg hlen]
          apply round2_bounds
          · linarith [b1.1, b2.1, b3.1, hb.1]
          · linarith [b1.2, b2.2, b3.2, hb.2]

/-- Witness for C2 at the spec's worked scenario (90 / 75 / 80 with all
field confidences 85): the aggregate lies in `[0, 100]`. -/
theorem C2_witness :
    0 ≤ calculate_confidence vScenario (some meta85) ∧
    calculate_confidence vScenario (some meta85) ≤ 100 := by
  apply (C2_confidence_aggregation vScenario (some meta85)).2
  · intro q hq
    injection hq with h
    subst h
    norm_num
  · intro q hq
    injection hq with h
    subst h
    norm_num
  · intro q hq
    injection hq with h
    subst h
    norm_num
  · intro x q hx hq
    simp only [metadataFields, meta85, List.mem_cons, List.not_mem_nil, or_false] at hx
    rcases hx with rfl | rfl | rfl | rfl <;>
      · injection hq with h
        subst h
        norm_num

end Carbonsentry
